import Mathlib

/-!
Shallow embedding of `src/GANDLF/parseConfig.py` (functions `parse_version`
and `parseConfig`).

YAML scalars and collections are modelled by the inductive type `Val`; a
YAML mapping is an association list that preserves insertion order, exactly
as Python dictionaries do.  Python floats are modelled as exact decimals.
A run of `parseConfig` ends in one of three ways, modelled by `Res`:
a returned parameter dictionary (`ok`), a `sys.exit` with a descriptive
message (`fatal`), or an uncaught Python exception such as `KeyError`,
`TypeError`, `ValueError` or `NameError` (`err`).
-/

/-- A YAML / Python value.  `null` is Python's `None`.  A Python float is
modelled exactly as a decimal `m · 10⁻ᵉ` (constructor `float m e`): every
float literal occurring in a YAML configuration is such a decimal, and the
program only converts, compares and truncates floats, which the decimal
model supports exactly. -/
inductive Val : Type where
  | null : Val
  | bool : Bool → Val
  | int : Int → Val
  | float : Int → Nat → Val
  | str : String → Val
  | list : List Val → Val
  | dict : List (String × Val) → Val

/-- An uncaught Python exception (not a `sys.exit`). -/
inductive PyErr : Type where
  | keyError : String → PyErr
  | typeError : String → PyErr
  | valueError : String → PyErr
  | nameError : String → PyErr
  | attributeError : String → PyErr

/-- Outcome of running (a piece of) `parseConfig`: a value, a fatal
`sys.exit(message)`, or an uncaught exception. -/
inductive Res (α : Type) : Type where
  | ok : α → Res α
  | fatal : String → Res α
  | err : PyErr → Res α

/-- Sequencing of fallible computations: exceptions and `sys.exit`
propagate, as in straight-line Python code. -/
def Res.andThen {α β : Type} : Res α → (α → Res β) → Res β
  | .ok a, f => f a
  | .fatal m, _ => .fatal m
  | .err e, _ => .err e

/-- True exactly on the `ok` outcome. -/
def Res.isOk {α : Type} : Res α → Bool
  | .ok _ => true
  | _ => false

/-- True exactly on the `fatal` (`sys.exit`) outcome. -/
def Res.isFatal {α : Type} : Res α → Bool
  | .fatal _ => true
  | _ => false

instance : Monad Res where
  pure := Res.ok
  bind := Res.andThen

@[simp] theorem Res.andThen_ok {α β : Type} (a : α) (f : α → Res β) :
    Res.andThen (.ok a) f = f a := rfl

@[simp] theorem Res.andThen_fatal {α β : Type} (m : String) (f : α → Res β) :
    Res.andThen (.fatal m) f = .fatal m := rfl

@[simp] theorem Res.andThen_err {α β : Type} (e : PyErr) (f : α → Res β) :
    Res.andThen (.err e) f = .err e := rfl

@[simp] theorem Res.bind_eq_andThen {α β : Type} (r : Res α) (f : α → Res β) :
    r >>= f = Res.andThen r f := rfl

@[simp] theorem Res.pure_eq_ok {α : Type} (a : α) :
    (pure a : Res α) = .ok a := rfl

/-- A Python dictionary with string keys, in insertion order. -/
def Dict : Type := List (String × Val)

/-- Lookup in a dictionary (first, and only, binding of the key). -/
def dget? : Dict → String → Option Val
  | [], _ => none
  | (k', v) :: rest, k => if k' = k then some v else dget? rest k

/-- Python `k in d` for a dictionary. -/
def dcontains (d : Dict) (k : String) : Bool :=
  (dget? d k).isSome

/-- Python `d[k] = v`: updates the binding in place (keeping its position)
or appends a new binding, as insertion-ordered Python dicts do. -/
def dset : Dict → String → Val → Dict
  | [], k, v => [(k, v)]
  | (k', v') :: rest, k, v =>
      if k' = k then (k', v) :: rest else (k', v') :: dset rest k v

@[simp] theorem dget?_dset_self (d : Dict) (k : String) (v : Val) :
    dget? (dset d k v) k = some v := by
  induction d with
  | nil => simp [dset, dget?]
  | cons h t ih =>
      by_cases hk : h.1 = k
      · simp [dset, dget?, hk]
      · simp [dset, dget?, hk, ih]

theorem dget?_dset_ne (d : Dict) (k k' : String) (v : Val) (h : k' ≠ k) :
    dget? (dset d k v) k' = dget? d k' := by
  have h' : k ≠ k' := Ne.symm h
  induction d with
  | nil => simp [dset, dget?, h']
  | cons hd t ih =>
      obtain ⟨k0, v0⟩ := hd
      by_cases hk : k0 = k
      · subst hk
        simp [dset, dget?, h']
      · simp [dset, dget?, hk, ih]

theorem dcontains_dset_ne (d : Dict) (k k' : String) (v : Val) (h : k' ≠ k) :
    dcontains (dset d k v) k' = dcontains d k' := by
  simp [dcontains, dget?_dset_ne d k k' v h]

theorem dcontains_false_iff (d : Dict) (k : String) :
    dcontains d k = false ↔ dget? d k = none := by
  simp [dcontains, Option.isSome]
  cases dget? d k <;> simp

/-- Python truthiness (`bool(x)`): `None`, `False`, zero, and empty
containers and strings are falsy; everything else is truthy. -/
def truthy : Val → Bool
  | .null => false
  | .bool b => b
  | .int n => n != 0
  | .float m _ => m != 0
  | .str s => !s.isEmpty
  | .list xs => !xs.isEmpty
  | .dict kvs => !kvs.isEmpty

/-- Python `x == None` (no numeric cross-type case applies). -/
def pyEqNone : Val → Bool
  | .null => true
  | _ => false

/-- Python `x == "lit"` for a string literal on the right: only a string
with the same characters compares equal. -/
def pyEqStrLit (v : Val) (lit : String) : Bool :=
  match v with
  | .str t => t == lit
  | _ => false

/-- Python `len(x)`: defined for strings, lists and dicts; `TypeError`
otherwise.  A Python `len` is never negative, hence the `Nat` result. -/
def pyLen : Val → Res Nat
  | .str s => .ok s.length
  | .list xs => .ok xs.length
  | .dict kvs => .ok kvs.length
  | _ => .err (.typeError "object has no len()")

/-- Python `d[k]` on the top-level parameter dictionary. -/
def pyDictGet (d : Dict) (k : String) : Res Val :=
  match dget? d k with
  | some v => .ok v
  | none => .err (.keyError k)

/-- Python `x[k]` for a string subscript `k`: dictionary lookup, or the
`TypeError` Python raises when `x` is not subscriptable by strings. -/
def pyGetItem (v : Val) (k : String) : Res Val :=
  match v with
  | .dict kvs =>
      match dget? kvs k with
      | some w => .ok w
      | none => .err (.keyError k)
  | .str _ => .err (.typeError "string indices must be integers")
  | .list _ => .err (.typeError "list indices must be integers")
  | .null => .err (.typeError "NoneType object is not subscriptable")
  | _ => .err (.typeError "object is not subscriptable")

/-- Python `x[k] = w` for a string subscript: in-place dictionary update,
or a `TypeError` when `x` is not a dictionary. -/
def pySetItem (v : Val) (k : String) (w : Val) : Res Val :=
  match v with
  | .dict kvs => .ok (.dict (dset kvs k w))
  | _ => .err (.typeError "object does not support item assignment")

/-- Python `needle in x` for a string needle: key membership for dicts,
substring test for strings, membership for lists, `TypeError` otherwise. -/
def pyIn (needle : String) (v : Val) : Res Bool
  := match v with
  | .dict kvs => .ok (dcontains kvs needle)
  | .str s => .ok (if needle.isEmpty then true else (s.splitOn needle).length != 1)
  | .list xs => .ok (xs.any (fun x => pyEqStrLit x needle))
  | .null => .err (.typeError "argument of type NoneType is not iterable")
  | _ => .err (.typeError "argument is not iterable")

/-- Value of a list of decimal digit characters. -/
def digitsToNat (l : List Char) : Nat :=
  l.foldl (fun a c => 10 * a + (c.toNat - 48)) 0

/-- The ASCII whitespace characters Python's `int(s)` strips from both
ends of its argument (space, tab, newline, carriage return, vertical tab,
form feed). -/
def pyWhitespace (c : Char) : Bool :=
  c = ' ' || c = '\t' || c = '\n' || c = '\r' || c = '\x0b' || c = '\x0c'

/-- A Python `digitpart` (PEP 515): decimal digits with single grouping
underscores allowed only between digits.  `digitsTail` checks what may
follow a digit: further digits, or an underscore that must be followed by
a digit. -/
def digitsTail : List Char → Bool
  | [] => true
  | c :: rest =>
      if c = '_' then
        match rest with
        | [] => false
        | d :: rest' => d.isDigit && digitsTail rest'
      else
        c.isDigit && digitsTail rest

/-- A non-empty digit string with optional single grouping underscores
between digits, as Python's `int` accepts. -/
def digitsWithUnderscores : List Char → Bool
  | [] => false
  | c :: rest => c.isDigit && digitsTail rest

/-- Python `int(s)` on a character sequence: surrounding ASCII whitespace
is stripped, then an optional sign precedes a digit string with optional
grouping underscores; anything else raises `ValueError` (modelled as
`none`).  Non-ASCII digits and non-ASCII whitespace, which Python also
accepts, are not modelled (the general theorems below restrict themselves
to ASCII characters). -/
def parseIntChars (l : List Char) : Option Int :=
  let stripped := ((l.dropWhile pyWhitespace).reverse.dropWhile pyWhitespace).reverse
  match stripped with
  | [] => none
  | c :: rest =>
      if c = '-' then
        if digitsWithUnderscores rest then
          some (-(digitsToNat (rest.filter fun x => x != '_') : Int))
        else
          none
      else if c = '+' then
        if digitsWithUnderscores rest then
          some ((digitsToNat (rest.filter fun x => x != '_') : Int))
        else
          none
      else
        if digitsWithUnderscores (c :: rest) then
          some ((digitsToNat ((c :: rest).filter fun x => x != '_') : Int))
        else
          none

/-- Python `s.split(c)` for a one-character separator: splits into the
(possibly empty) runs between occurrences of `c`. -/
def splitChar (c : Char) : List Char → List (List Char)
  | [] => [[]]
  | x :: xs =>
      if x = c then
        [] :: splitChar c xs
      else
        match splitChar c xs with
        | [] => [[x]]
        | g :: gs => (x :: g) :: gs

/-- `parse_version` from `src/GANDLF/parseConfig.py` (lines 9-16): split the
version string on `.`, delete the last component when more than 3 remain,
join the rest and parse the concatenation with `int(...)`.  `none` models
the `ValueError` that `int` raises on a non-numeric concatenation. -/
def parse_version (version_string : String) : Option Int :=
  let version_string_split := splitChar '.' version_string.data
  let version_string_split :=
    if version_string_split.length > 3 then
      version_string_split.dropLast
    else
      version_string_split
  parseIntChars version_string_split.flatten

/-- Python `int(x)`: identity on ints, `True`/`False` to `1`/`0`,
truncation toward zero on floats, decimal parsing on strings, and
`TypeError` on `None` and containers. -/
def pyInt : Val → Res Int
  | .int n => .ok n
  | .bool b => .ok (if b then 1 else 0)
  | .float m e => .ok (Int.tdiv m ((10 : Int) ^ e))
  | .str s =>
      match parseIntChars s.data with
      | some n => .ok n
      | none => .err (.valueError "invalid literal for int() with base 10")
  | _ => .err (.typeError "int() argument must be a string or a number")

/-- Python `float(x)` in the decimal model.  String conversion is modelled
for integer-shaped strings only; no configuration field at issue feeds a
fractional string to `float`. -/
def pyFloat : Val → Res Val
  | .float m e => .ok (.float m e)
  | .int n => .ok (.float n 0)
  | .bool b => .ok (.float (if b then 1 else 0) 0)
  | .str s =>
      match parseIntChars s.data with
      | some n => .ok (.float n 0)
      | none => .err (.valueError "could not convert string to float")
  | _ => .err (.typeError "float() argument must be a string or a number")

/-- Python `str(x)`.  The program applies it to the `opt`, `scheduler`,
`modelName` and `which_model` fields, which hold scalars; the rendering of
containers is not modelled precisely (no claim depends on it). -/
def pyStr : Val → String
  | .null => "None"
  | .bool true => "True"
  | .bool false => "False"
  | .int n => toString n
  | .float m e => toString m ++ "e-" ++ toString e
  | .str s => s
  | .list _ => "<list>"
  | .dict _ => "<dict>"

/-- A numpy-comparable number: ints, floats and bools, as `m · 10⁻ᵉ`. -/
def asNum : Val → Option (Int × Nat)
  | .int n => some (n, 0)
  | .float m e => some (m, e)
  | .bool b => some ((if b then 1 else 0), 0)
  | _ => none

/-- All elements of a list as numbers, or `none` when one is not
numeric. -/
def asNumAll : List Val → Option (List (Int × Nat))
  | [] => some []
  | v :: vs =>
      match asNum v, asNumAll vs with
      | some p, some ps => some (p :: ps)
      | _, _ => none

/-- A numpy 1-D operand: a list of numbers, or a scalar (a 0-D array,
which broadcasts).  `resize` and `psize` are 1-D numeric lists. -/
def asNumList : Val → Option (List (Int × Nat))
  | .list xs => asNumAll xs
  | v => (asNum v).map (fun p => [p])

/-- Exact comparison `p ≥ q` of two decimals `m · 10⁻ᵉ`. -/
def decimalGe (p q : Int × Nat) : Bool :=
  q.1 * (10 : Int) ^ p.2 ≤ p.1 * (10 : Int) ^ q.2

/-- `np.greater_equal(a, b).all()` for the 1-D numeric operands the
program compares (`resize` against `psize`): element-wise `≥` under
numpy broadcasting, `ValueError` on incompatible shapes, `TypeError` on
non-numeric operands such as `None`. -/
def npGreaterEqualAll (a b : Val) : Res Bool :=
  match asNumList a, asNumList b with
  | some xs, some ys =>
      if xs.length = ys.length then
        .ok ((xs.zip ys).all fun p => decimalGe p.1 p.2)
      else if xs.length = 1 then
        .ok (ys.all fun y => decimalGe (xs.headD (0, 0)) y)
      else if ys.length = 1 then
        .ok (xs.all fun x => decimalGe x (ys.headD (0, 0)))
      else
        .err (.valueError "operands could not be broadcast together")
  | _, _ =>
      .err (.typeError "greater_equal not supported for the input types")

/-- `parse_version` applied to a configuration value, as in
`parse_version(params['version']['minimum'])`: `version_string.split('.')`
requires a string (`AttributeError` otherwise), and `int(...)` raises
`ValueError` on a non-numeric concatenation. -/
def parseVersionVal (v : Val) : Res Int :=
  match v with
  | .str s =>
      match parse_version s with
      | some n => .ok n
      | none => .err (.valueError "invalid literal for int() with base 10")
  | _ => .err (.attributeError "object has no attribute split")

/-- Lines 25-33: the version gate.  `gandlf_version` is the version string
of the installed GANDLF package (`pkg_resources.require('GANDLF')`),
passed as a parameter of the embedding. -/
def checkVersion (gandlf_version : String) (params : Dict) : Res Unit :=
  if !(dcontains params "version") then
    .fatal "The \x27version\x27 key needs to be defined in config with \x27minimum\x27 and \x27maximum\x27 fields to determine the compatibility of configuration with code base"
  else
    Res.andThen (parseVersionVal (.str gandlf_version)) fun gandlf_version_int =>
    Res.andThen (pyDictGet params "version") fun ver =>
    Res.andThen (pyGetItem ver "minimum") fun vmin =>
    Res.andThen (parseVersionVal vmin) fun minInt =>
    Res.andThen (pyGetItem ver "maximum") fun vmax =>
    Res.andThen (parseVersionVal vmax) fun maxInt =>
    if minInt > gandlf_version_int || maxInt < gandlf_version_int then
      .fatal ("Incompatible version of GANDLF detected (" ++ gandlf_version ++ ")")
    else
      .ok ()

/-- Lines 36-37: `class_list` must be present. -/
def checkClassList (params : Dict) : Res Unit :=
  if !(dcontains params "class_list") then
    .fatal "The \x27class_list\x27 parameter needs to be present in the configuration file"
  else
    .ok ()

/-- Lines 39-40: `if not params['dimension']` — an unguarded lookup
(`KeyError` when the key is absent), then a truthiness test. -/
def checkDimension (params : Dict) : Res Unit :=
  Res.andThen (pyDictGet params "dimension") fun v =>
  if !(truthy v) then
    .fatal "The \x27dimension\x27 parameter to be defined, which should be 2 or 3"
  else
    .ok ()

/-- Lines 42-45: copy `patch_size` to `psize`, or exit. -/
def stepPatchSize (params : Dict) : Res Dict :=
  match dget? params "patch_size" with
  | some v => .ok (dset params "psize" v)
  | none => .fatal "The \x27patch_size\x27 parameter needs to be present in the configuration file"

/-- Lines 47-51: when `resize` is present it must compare element-wise
`>=` against `psize` (via `np.greater_equal(...).all()`), else the run
exits; when absent, `resize` defaults to `None`. -/
def stepResize (params : Dict) : Res Dict :=
  if dcontains params "resize" then
    Res.andThen (pyDictGet params "resize") fun rv =>
    Res.andThen (pyDictGet params "psize") fun pv =>
    Res.andThen (npGreaterEqualAll rv pv) fun ge =>
    if !ge then
      .fatal "The \x27resize\x27 parameter needs to be greater than or equal to \x27patch_size\x27"
    else
      .ok params
  else
    .ok (dset params "resize" .null)

/-- Lines 54-66: `num_epochs` (`int(...)`, default `100`) followed by
`patience` (`int(...)`, defaulting to the `num_epochs` just computed). -/
def stepEpochsPatience (params : Dict) : Res Dict :=
  Res.andThen
    (match dget? params "num_epochs" with
     | some v => pyInt v
     | none => .ok 100) fun num_epochs =>
  let params := dset params "num_epochs" (.int num_epochs)
  Res.andThen
    (match dget? params "patience" with
     | some v => pyInt v
     | none => .ok num_epochs) fun patience =>
  .ok (dset params "patience" (.int patience))

/-- An `int(...)`-coerced field with a default, the pattern of lines
68-73 (`batch_size`), 155-160 (`base_filters`) and 213-229 (the `q_*`
fields). -/
def intFieldStep (key : String) (dflt : Int) (params : Dict) : Res Dict :=
  Res.andThen
    (match dget? params key with
     | some v => pyInt v
     | none => .ok dflt) fun n =>
  .ok (dset params key (.int n))

/-- Lines 75-80: `amp = bool(params['amp'])`, default `False`. -/
def stepAmp (params : Dict) : Res Dict :=
  match dget? params "amp" with
  | some v => .ok (dset params "amp" (.bool (truthy v)))
  | none => .ok (dset params "amp" (.bool false))

/-- Lines 82-87: `learning_rate = float(...)`, default `0.001`. -/
def stepLearningRate (params : Dict) : Res Dict :=
  Res.andThen
    (match dget? params "learning_rate" with
     | some v => pyFloat v
     | none => .ok (.float 1 3)) fun q =>
  .ok (dset params "learning_rate" q)

/-- A `str(...)`-coerced field with a default, the pattern of lines
118-123 (`opt`) and 207-211 (`scheduler`). -/
def strFieldStep (key : String) (dflt : String) (params : Dict) : Res Dict :=
  match dget? params key with
  | some v => .ok (dset params key (.str (pyStr v)))
  | none => .ok (dset params key (.str dflt))

/-- Lines 94-100, one iteration of `for key in params['loss_function']`.
The body re-reads the current `params['loss_function']` (the loop header
iterates over the keys the dictionary had on entry, but line 100 may have
replaced the value by a plain string, in which case the subscripts of the
`mse` branch raise `TypeError`). -/
def lossLoopBody (params : Dict) (key : String) : Res Dict :=
  if key = "mse" then
    Res.andThen (pyDictGet params "loss_function") fun lf =>
    Res.andThen (pyGetItem lf key) fun v =>
    Res.andThen
      (if pyEqNone v then .ok true
       else Res.andThen (pyIn "reduction" v) fun b => .ok (!b)) fun needsFix =>
    if needsFix then
      Res.andThen (pySetItem lf key (.dict [])) fun lf1 =>
      Res.andThen (pyGetItem lf1 key) fun inner =>
      Res.andThen (pySetItem inner "reduction" (.str "mean")) fun inner1 =>
      Res.andThen (pySetItem lf1 key inner1) fun lf2 =>
      .ok (dset params "loss_function" lf2)
    else
      .ok params
  else
    .ok (dset params "loss_function" (.str key))

/-- Lines 89-116: normalization of `loss_function`.  Returns the updated
dictionary together with the final value of the loop variable `key`
(`none` when the `for` loop of line 94 never ran, i.e. `key` stays
undefined); the buggy `data_augmentation` block of lines 126-133 reads
that stale variable.  Every path ends with the assignment of line 116. -/
def lossStep (params : Dict) : Res (Dict × Option String) :=
  match dget? params "loss_function" with
  | some v =>
      match v with
      | .dict kvs =>
          if kvs.length > 0 then
            Res.andThen
              (kvs.foldlM (fun acc kv => lossLoopBody acc kv.1) params) fun d1 =>
            Res.andThen (pyDictGet d1 "loss_function") fun lf =>
            .ok (dset d1 "loss_function" lf, (kvs.map Prod.fst).getLast?)
          else
            .ok (dset params "loss_function" (.str "dc"), none)
      | w =>
          if pyEqStrLit w "mse" then
            let mse : Val := .dict [("mse", .dict [("reduction", .str "mean")])]
            .ok (dset params "loss_function" mse, none)
          else
            .ok (dset params "loss_function" w, none)
  | none => .ok (dset params "loss_function" (.str "dc"), none)

/-- Lines 126-133: the `data_augmentation` block.  Note the missing
`for key in params['data_augmentation']` header in the source: the block
performs one unguarded `len` lookup and then inspects the stale loop
variable `key` left over from the `loss_function` loop (`NameError` when
that loop never ran). -/
def augStep (keyVar : Option String) (params : Dict) : Res Dict :=
  Res.andThen (pyDictGet params "data_augmentation") fun aug =>
  Res.andThen (pyLen aug) fun n =>
  if n > 0 then
    let keysToSkip := ["normalize", "resample", "threshold", "clip"]
    match keyVar with
    | none => .err (.nameError "key")
    | some key =>
        if !(keysToSkip.contains key) then
          Res.andThen (pyGetItem aug key) fun v =>
          Res.andThen
            (if pyEqNone v then .ok true
             else Res.andThen (pyIn "probability" v) fun b => .ok (!b)) fun needsFix =>
          if needsFix then
            Res.andThen (pySetItem aug key (.dict [])) fun aug1 =>
            Res.andThen (pyGetItem aug1 key) fun inner =>
            Res.andThen (pySetItem inner "probability" (.int 1)) fun inner1 =>
            Res.andThen (pySetItem aug1 key inner1) fun aug2 =>
            .ok (dset params "data_augmentation" aug2)
          else
            .ok params
        else
          .ok params
  else
    .ok params

/-- `sys.float_info.min` as a decimal (the IEEE-754 value
`2.2250738585072014e-308`); only reachable from the dead branch of
`preprocStep`. -/
def floatInfoMin : Val := .float 22250738585072014 324

/-- `sys.float_info.max` as a decimal (`1.7976931348623157e+308`). -/
def floatInfoMax : Val := .float (17976931348623157 * (10 : Int) ^ 292) 0

/-- Lines 139-152, one iteration of `for key in params['data_preprocessing']`
with the `thresholdOrClip` flag threaded through. -/
def preprocLoopBody (st : Bool × Dict) (key : String) : Res (Bool × Dict) :=
  let thresholdOrClip := st.1
  let params := st.2
  let thresholdOrClipDict := ["threshold", "clip"]
  if !thresholdOrClip then
    if thresholdOrClipDict.contains key then
      Res.andThen (pyDictGet params "data_preprocessing") fun pre =>
      Res.andThen (pyGetItem pre key) fun v0 =>
      let v := match v0 with
        | .dict kvs => Val.dict kvs
        | _ => Val.dict []
      Res.andThen (pyIn "min" v) fun hasMin =>
      let v := if !hasMin then
          match pySetItem v "min" floatInfoMin with
          | .ok w => w
          | _ => v
        else v
      Res.andThen (pyIn "max" v) fun hasMax =>
      let v := if !hasMax then
          match pySetItem v "max" floatInfoMax with
          | .ok w => w
          | _ => v
        else v
      Res.andThen (pySetItem pre key v) fun pre1 =>
      .ok (true, dset params "data_preprocessing" pre1)
    else
      .ok (thresholdOrClip, params)
  else
    .fatal "Use only \x27threshold\x27 or \x27clip\x27, not both"

/-- Lines 136-152: the `data_preprocessing` block.  The guard in the
source is `len(params['data_preprocessing']) < 0`, which never holds (a
`len` is non-negative), so only the `len` lookup itself is ever
performed; the loop body is translated but dead. -/
def preprocStep (params : Dict) : Res Dict :=
  Res.andThen (pyDictGet params "data_preprocessing") fun pre =>
  Res.andThen (pyLen pre) fun n =>
  if n < 0 then
    match pre with
    | .dict kvs =>
        Res.andThen
          (kvs.foldlM (fun st kv => preprocLoopBody st kv.1) (false, params)) fun st =>
        .ok st.2
    | _ => .ok params
  else
    .ok params

/-- Lines 162-175: `which_model`, from the superseded `modelName` or
`which_model` fields, defaulting to `resunet`. -/
def stepWhichModel (params : Dict) : Res Dict :=
  match dget? params "modelName" with
  | some v => .ok (dset params "which_model" (.str (pyStr v)))
  | none =>
      match dget? params "which_model" with
      | some v => .ok (dset params "which_model" (.str (pyStr v)))
      | none => .ok (dset params "which_model" (.str "resunet"))

/-- Lines 177-190: the `model` parameter must be a non-empty dictionary
with truthy `architecture` and `final_layer` entries (each read by an
unguarded subscript). -/
def checkModel (params : Dict) : Res Unit :=
  match dget? params "model" with
  | some m =>
      Res.andThen
        (match m with
         | .dict kvs =>
             if kvs.length = 0 then
               .fatal "The \x27model\x27 parameter needs to be populated as a dictionary and should have all properties present"
             else
               .ok ()
         | _ => .fatal "The \x27model\x27 parameter needs to be populated as a dictionary") fun _ =>
      Res.andThen (pyGetItem m "architecture") fun arch =>
      if !(truthy arch) then
        .fatal "The \x27model\x27 parameter needs \x27architecture\x27 key to be defined"
      else
        Res.andThen (pyGetItem m "final_layer") fun fl =>
        if !(truthy fl) then
          .fatal "The \x27model\x27 parameter needs \x27final_layer\x27 key to be defined"
        else
          .ok ()
  | none => .fatal "The \x27model\x27 parameter needs to be populated as a dictionary"

/-- Lines 192-193: the retired `kcross_validation` key. -/
def checkKcross (params : Dict) : Res Unit :=
  if dcontains params "kcross_validation" then
    .fatal "\x27kcross_validation\x27 is no longer used, please use \x27nested_training\x27 instead"
  else
    .ok ()

/-- Lines 195-204: `nested_training` must be truthy (unguarded lookup);
its `holdout` and `validation` entries are read and tested, but the
"default" lines 200 and 204 are bare expressions, not assignments, so the
dictionary is never modified. -/
def nestedCheck (params : Dict) : Res Unit :=
  Res.andThen (pyDictGet params "nested_training") fun nt =>
  if !(truthy nt) then
    .fatal "The parameter \x27nested_training\x27 needs to be defined"
  else
    Res.andThen (pyGetItem nt "holdout") fun h =>
    Res.andThen
      (if !(truthy h) then
         Res.andThen (pyGetItem nt "holdout") fun _ => .ok ()
       else
         .ok ()) fun _ =>
    Res.andThen (pyGetItem nt "validation") fun v =>
    if !(truthy v) then
      Res.andThen (pyGetItem nt "validation") fun _ => .ok ()
    else
      .ok ()

/-- Lines 231-235: `q_verbose` becomes `True` only when the raw value
compares equal to the string `'True'`, else `False`. -/
def stepQVerbose (params : Dict) : Res Dict :=
  match dget? params "q_verbose" with
  | some v =>
      if pyEqStrLit v "True" then
        .ok (dset params "q_verbose" (.bool true))
      else
        .ok (dset params "q_verbose" (.bool false))
  | none => .ok (dset params "q_verbose" (.bool false))

/-- Lines 237-242: `parallel_compute_command`, default `''`, with single
and double quotes stripped (`.replace` needs a string: `AttributeError`
otherwise). -/
def stepParallel (params : Dict) : Res Dict :=
  match dget? params "parallel_compute_command" with
  | some v =>
      match v with
      | .str s =>
          .ok (dset params "parallel_compute_command"
                 (.str ((s.replace "\x27" "").replace "\"" "")))
      | _ => .err (.attributeError "object has no attribute replace")
  | none => .ok (dset params "parallel_compute_command" (.str ""))

/-- Lines 36-244 of `parseConfig`, everything after the version gate. -/
def afterVersion (params : Dict) : Res Dict :=
  Res.andThen (checkClassList params) fun _ =>
  Res.andThen (checkDimension params) fun _ =>
  Res.andThen (stepPatchSize params) fun params =>
  Res.andThen (stepResize params) fun params =>
  Res.andThen (stepEpochsPatience params) fun params =>
  Res.andThen (intFieldStep "batch_size" 1 params) fun params =>
  Res.andThen (stepAmp params) fun params =>
  Res.andThen (stepLearningRate params) fun params =>
  Res.andThen (lossStep params) fun pk =>
  Res.andThen (strFieldStep "opt" "adam" pk.1) fun params =>
  Res.andThen (augStep pk.2 params) fun params =>
  Res.andThen (preprocStep params) fun params =>
  Res.andThen (intFieldStep "base_filters" 30 params) fun params =>
  Res.andThen (stepWhichModel params) fun params =>
  Res.andThen (checkModel params) fun _ =>
  Res.andThen (checkKcross params) fun _ =>
  Res.andThen (nestedCheck params) fun _ =>
  Res.andThen (strFieldStep "scheduler" "triangle" params) fun params =>
  Res.andThen (intFieldStep "q_max_length" 100 params) fun params =>
  Res.andThen (intFieldStep "q_samples_per_volume" 10 params) fun params =>
  Res.andThen (intFieldStep "q_num_workers" 4 params) fun params =>
  Res.andThen (stepQVerbose params) fun params =>
  Res.andThen (stepParallel params) fun params =>
  .ok params

/-- `parseConfig` from `src/GANDLF/parseConfig.py` (lines 18-244), acting
on the already-YAML-parsed top-level mapping of the configuration file.
`gandlf_version` is the installed package version string. -/
def parseConfig (gandlf_version : String) (params : Dict) : Res Dict :=
  Res.andThen (checkVersion gandlf_version params) fun _ =>
  afterVersion params

/-- The `data_preprocessing` value of the returned dictionary, when the
run returned one. -/
def okLookup (r : Res Dict) (k : String) : Option Val :=
  match r with
  | .ok d => dget? d k
  | _ => none

/-- A compatible `version` mapping: minimum `0.0.1`, maximum `2.0.0`
(keys 1 and 200, enclosing the engine key 30 of version `0.3.0`). -/
def verOk : Val := .dict [("minimum", .str "0.0.1"), ("maximum", .str "2.0.0")]

/-- A document with both `threshold` and `clip` under
`data_preprocessing`, and every required field valid. -/
def c2doc : Dict :=
  [("version", verOk), ("class_list", .list [.int 0, .int 1]),
   ("dimension", .int 3), ("patch_size", .list [.int 32, .int 32]),
   ("model", .dict [("architecture", .str "unet"), ("final_layer", .str "softmax")]),
   ("nested_training", .dict [("holdout", .int 5), ("validation", .int 5)]),
   ("data_augmentation", .dict []),
   ("data_preprocessing", .dict [("threshold", .dict [("min", .int 1)]), ("clip", .dict [])])]

/-- C2: the claim says a document with both `data_preprocessing.threshold`
and `data_preprocessing.clip` fails fatally, and that a lone one of them
gets `min`/`max` defaults.  The code's guard on line 136 is
`len(params['data_preprocessing']) < 0`, which never holds, so the block
it guards is dead: this run with both keys present returns normally, with
the preprocessing mapping untouched (in particular `threshold` still has
no `max`). -/
theorem C2_threshold_clip_block_dead :
    (parseConfig "0.3.0" c2doc).isOk = true ∧
    (parseConfig "0.3.0" c2doc).isFatal = false ∧
    okLookup (parseConfig "0.3.0" c2doc) "data_preprocessing" =
      some (.dict [("threshold", .dict [("min", .int 1)]), ("clip", .dict [])]) :=
  ⟨rfl, rfl, rfl⟩

/-- A valid document whose `nested_training.holdout` is the falsy `0`. -/
def c5doc : Dict :=
  [("version", verOk), ("class_list", .list [.int 0, .int 1]),
   ("dimension", .int 3), ("patch_size", .list [.int 32, .int 32]),
   ("model", .dict [("architecture", .str "unet"), ("final_layer", .str "softmax")]),
   ("nested_training", .dict [("holdout", .int 0), ("validation", .int 5)]),
   ("data_augmentation", .dict []), ("data_preprocessing", .dict [])]

/-- C5: the claim says a falsy `nested_training.holdout` comes back as the
sentinel `-10`.  Lines 200 and 204 of the source are bare expressions
(`params['nested_training']['holdout']` with no assignment), so the
computed `kfolds = -10` is dropped: this successful run returns `holdout`
still `0`, not `-10`. -/
theorem C5_sentinel_never_stored :
    (parseConfig "0.3.0" c5doc).isOk = true ∧
    okLookup (parseConfig "0.3.0" c5doc) "nested_training" =
      some (.dict [("holdout", .int 0), ("validation", .int 5)]) :=
  ⟨rfl, rfl⟩

/-- A valid document with a non-empty `data_augmentation` entry `flip`
(and no `loss_function`, so the loop variable `key` of line 94 is never
bound). -/
def c6doc : Dict :=
  [("version", verOk), ("class_list", .list [.int 0, .int 1]),
   ("dimension", .int 3), ("patch_size", .list [.int 32, .int 32]),
   ("model", .dict [("architecture", .str "unet"), ("final_layer", .str "softmax")]),
   ("nested_training", .dict [("holdout", .int 5), ("validation", .int 5)]),
   ("data_augmentation", .dict [("flip", .null)]), ("data_preprocessing", .dict [])]

/-- C6: the claim says every non-reserved augmentation key gets a
`probability` sub-field (defaulted to 1).  The `for key in
params['data_augmentation']` header is missing from lines 126-133, so the
block dereferences the stale loop variable `key`; on this document the
variable was never bound and the run dies with `NameError`, assigning no
probability to `flip` and neither returning nor exiting fatally. -/
theorem C6_augmentation_loop_header_missing :
    parseConfig "0.3.0" c6doc = .err (.nameError "key") ∧
    (parseConfig "0.3.0" c6doc).isOk = false ∧
    (parseConfig "0.3.0" c6doc).isFatal = false :=
  ⟨rfl, rfl, rfl⟩

/-- A valid document without a `resize` field. -/
def c7doc : Dict :=
  [("version", verOk), ("class_list", .list [.int 0, .int 1]),
   ("dimension", .int 3), ("patch_size", .list [.int 32, .int 32]),
   ("model", .dict [("architecture", .str "unet"), ("final_layer", .str "softmax")]),
   ("nested_training", .dict [("holdout", .int 5), ("validation", .int 5)]),
   ("data_augmentation", .dict []), ("data_preprocessing", .dict [])]

/-- The dictionary `parseConfig` returns for `c7doc`: the input fields
followed by every defaulted field, with `resize` defaulted to `None`. -/
def c7out : Dict :=
  [("version", verOk), ("class_list", .list [.int 0, .int 1]),
   ("dimension", .int 3), ("patch_size", .list [.int 32, .int 32]),
   ("model", .dict [("architecture", .str "unet"), ("final_layer", .str "softmax")]),
   ("nested_training", .dict [("holdout", .int 5), ("validation", .int 5)]),
   ("data_augmentation", .dict []), ("data_preprocessing", .dict []),
   ("psize", .list [.int 32, .int 32]), ("resize", .null),
   ("num_epochs", .int 100), ("patience", .int 100), ("batch_size", .int 1),
   ("amp", .bool false), ("learning_rate", .float 1 3),
   ("loss_function", .str "dc"), ("opt", .str "adam"),
   ("base_filters", .int 30), ("which_model", .str "resunet"),
   ("scheduler", .str "triangle"), ("q_max_length", .int 100),
   ("q_samples_per_volume", .int 10), ("q_num_workers", .int 4),
   ("q_verbose", .bool false), ("parallel_compute_command", .str "")]

/-- C7: the claim says normalization is idempotent, explicitly including
a `resize` defaulted to `None`.  This run succeeds and defaults `resize`
to `None`; re-feeding the output makes line 48 evaluate
`np.greater_equal(None, psize)`, which raises `TypeError` — the second
run neither returns the same dictionary nor terminates normally. -/
theorem C7_refeed_crashes_on_defaulted_resize :
    parseConfig "0.3.0" c7doc = .ok c7out ∧
    parseConfig "0.3.0" c7out =
      .err (.typeError "greater_equal not supported for the input types") ∧
    (parseConfig "0.3.0" c7out).isOk = false :=
  ⟨rfl, rfl, rfl⟩

/-- A document with a valid `version` and `class_list` but no `dimension`
field. -/
def c9doc : Dict :=
  [("version", verOk), ("class_list", .list [.int 0, .int 1])]

/-- C9: the claim says every missing required field aborts through the
descriptive-message path.  For a missing `dimension`, line 39 evaluates
`if not params['dimension']` — an unguarded lookup — so the run dies with
`KeyError` instead of the `sys.exit` message (contradicting the comment
on line 35, "this should error out if not present"). -/
theorem C9_missing_dimension_is_keyerror :
    parseConfig "0.3.0" c9doc = .err (.keyError "dimension") ∧
    (parseConfig "0.3.0" c9doc).isFatal = false ∧
    (parseConfig "0.3.0" c9doc).isOk = false :=
  ⟨rfl, rfl, rfl⟩

/-- C1: for a document whose `version` mapping has string `minimum` and
`maximum` fields with well-defined version keys, the version gate of
lines 25-33 exits fatally exactly when the engine's key is strictly below
the minimum key or strictly above the maximum key; when it is within the
closed interval (boundaries included) the gate passes and `parseConfig`
proceeds with the rest of normalization. -/
theorem C1_version_gate (gv : String) (d : Dict) (vd : List (String × Val))
    (smin smax : String) (gvi nmin nmax : Int)
    (hver : dget? d "version" = some (.dict vd))
    (hmin : dget? vd "minimum" = some (.str smin))
    (hmax : dget? vd "maximum" = some (.str smax))
    (hgv : parse_version gv = some gvi)
    (hpmin : parse_version smin = some nmin)
    (hpmax : parse_version smax = some nmax) :
    ((checkVersion gv d).isFatal = true ↔ (gvi < nmin ∨ nmax < gvi)) ∧
    (¬(gvi < nmin ∨ nmax < gvi) → parseConfig gv d = afterVersion d) := by
  have hcv : checkVersion gv d =
      (if nmin > gvi || nmax < gvi then
        .fatal ("Incompatible version of GANDLF detected (" ++ gv ++ ")")
      else
        .ok ()) := by
    simp [checkVersion, dcontains, hver, pyDictGet, pyGetItem, hmin, hmax,
          parseVersionVal, hgv, hpmin, hpmax]
  constructor
  · rw [hcv]
    by_cases h : nmin > gvi || nmax < gvi
    · simp only [if_pos h, Res.isFatal]
      simp only [Bool.or_eq_true, decide_eq_true_eq] at h
      simp [h]
    · simp only [if_neg h, Res.isFatal]
      simp only [Bool.or_eq_true, decide_eq_true_eq, not_or, not_lt] at h
      constructor
      · intro hh
        exact absurd hh (by simp)
      · intro hh
        omega
  · intro h
    have : checkVersion gv d = .ok () := by
      rw [hcv, if_neg]
      simp only [Bool.or_eq_true, decide_eq_true_eq]
      omega
    simp [parseConfig, this]

/-- The document of the `C1_version_gate` witness: the engine version
`0.0.5` sits exactly on the declared minimum. -/
def c1wit : Dict :=
  [("version", .dict [("minimum", .str "0.0.5"), ("maximum", .str "0.0.9")])]

theorem C1_version_gate_witness :
    (checkVersion "0.0.5" c1wit).isFatal = false ∧
    parseConfig "0.0.5" c1wit = afterVersion c1wit := by
  have h := C1_version_gate "0.0.5" c1wit
    [("minimum", .str "0.0.5"), ("maximum", .str "0.0.9")]
    "0.0.5" "0.0.9" 5 5 9 rfl rfl rfl rfl rfl rfl
  refine ⟨?_, h.2 (by omega)⟩
  by_cases hb : (checkVersion "0.0.5" c1wit).isFatal = true
  · exact absurd (h.1.mp hb) (by omega)
  · simpa using hb

/-- C10: with `data_augmentation` absent, the unguarded lookup of line
126 raises `KeyError` (under hypotheses making every earlier gate pass);
with `data_augmentation` present but empty and `data_preprocessing`
absent, the unguarded lookup of line 136 raises `KeyError`.  In both
cases the run neither returns a dictionary nor exits through the
fatal-message path. -/
theorem C10_preprocessing_keys_mandatory (gv : String) (d : Dict)
    (vd : List (String × Val)) (smin smax : String) (gvi nmin nmax : Int)
    (vdim pv : Val)
    (hver : dget? d "version" = some (.dict vd))
    (hmin : dget? vd "minimum" = some (.str smin))
    (hmax : dget? vd "maximum" = some (.str smax))
    (hgv : parse_version gv = some gvi)
    (hpmin : parse_version smin = some nmin)
    (hpmax : parse_version smax = some nmax)
    (hrange : ¬(gvi < nmin ∨ nmax < gvi))
    (hclass : dcontains d "class_list" = true)
    (hdim : dget? d "dimension" = some vdim)
    (hdimT : truthy vdim = true)
    (hpatch : dget? d "patch_size" = some pv)
    (hresize : dcontains d "resize" = false)
    (hne : dcontains d "num_epochs" = false)
    (hpat : dcontains d "patience" = false)
    (hbs : dcontains d "batch_size" = false)
    (hamp : dcontains d "amp" = false)
    (hlr : dcontains d "learning_rate" = false)
    (hloss : dcontains d "loss_function" = false)
    (hopt : dcontains d "opt" = false) :
    (dcontains d "data_augmentation" = false →
      parseConfig gv d = .err (.keyError "data_augmentation") ∧
      (parseConfig gv d).isOk = false ∧ (parseConfig gv d).isFatal = false) ∧
    (dget? d "data_augmentation" = some (.dict []) →
      dcontains d "data_preprocessing" = false →
      parseConfig gv d = .err (.keyError "data_preprocessing") ∧
      (parseConfig gv d).isOk = false ∧ (parseConfig gv d).isFatal = false) := by
  have hcv : checkVersion gv d = .ok () := by
    simp only [checkVersion, dcontains, hver, Option.isSome, Bool.not_true,
      Bool.false_eq_true, if_false, parseVersionVal, hgv, pyDictGet,
      pyGetItem, hmin, hmax, hpmin, hpmax, Res.andThen_ok]
    rw [if_neg]
    simp only [Bool.or_eq_true, decide_eq_true_eq]
    omega
  have hcl : checkClassList d = .ok () := by
    simp [checkClassList, hclass]
  have hcd : checkDimension d = .ok () := by
    simp [checkDimension, pyDictGet, hdim, hdimT]
  -- the state after the resize default
  set d1 : Dict := dset d "psize" pv with hd1
  have hps : stepPatchSize d = .ok d1 := by
    simp [stepPatchSize, hpatch]
  have hrs : stepResize d1 = .ok (dset d1 "resize" .null) := by
    have : dcontains d1 "resize" = false := by
      rw [hd1, dcontains_dset_ne _ _ _ _ (by decide)]
      exact hresize
    simp [stepResize, this]
  set d2 : Dict := dset d1 "resize" .null with hd2
  have hgetA : ∀ k : String, k ≠ "psize" → k ≠ "resize" →
      dget? d2 k = dget? d k := by
    intro k h1 h2
    rw [hd2, dget?_dset_ne _ _ _ _ h2, hd1, dget?_dset_ne _ _ _ _ h1]
  have hep : stepEpochsPatience d2 =
      .ok (dset (dset d2 "num_epochs" (.int 100)) "patience" (.int 100)) := by
    have h1 : dget? d2 "num_epochs" = none := by
      rw [hgetA _ (by decide) (by decide)]
      exact (dcontains_false_iff _ _).mp hne
    have h2 : dget? (dset d2 "num_epochs" (.int 100)) "patience" = none := by
      rw [dget?_dset_ne _ _ _ _ (by decide), hgetA _ (by decide) (by decide)]
      exact (dcontains_false_iff _ _).mp hpat
    simp [stepEpochsPatience, h1, h2]
  set d3 : Dict := dset (dset d2 "num_epochs" (.int 100)) "patience" (.int 100) with hd3
  have hgetB : ∀ k : String, k ≠ "psize" → k ≠ "resize" → k ≠ "num_epochs" →
      k ≠ "patience" → dget? d3 k = dget? d k := by
    intro k h1 h2 h3 h4
    rw [hd3, dget?_dset_ne _ _ _ _ h4, dget?_dset_ne _ _ _ _ h3, hgetA _ h1 h2]
  have hb : intFieldStep "batch_size" 1 d3 = .ok (dset d3 "batch_size" (.int 1)) := by
    have h1 : dget? d3 "batch_size" = none := by
      rw [hgetB _ (by decide) (by decide) (by decide) (by decide)]
      exact (dcontains_false_iff _ _).mp hbs
    simp [intFieldStep, h1]
  set d4 : Dict := dset d3 "batch_size" (.int 1) with hd4
  have ha : stepAmp d4 = .ok (dset d4 "amp" (.bool false)) := by
    have h1 : dget? d4 "amp" = none := by
      rw [hd4, dget?_dset_ne _ _ _ _ (by decide),
        hgetB _ (by decide) (by decide) (by decide) (by decide)]
      exact (dcontains_false_iff _ _).mp hamp
    simp [stepAmp, h1]
  set d5 : Dict := dset d4 "amp" (.bool false) with hd5
  have hl : stepLearningRate d5 = .ok (dset d5 "learning_rate" (.float 1 3)) := by
    have h1 : dget? d5 "learning_rate" = none := by
      rw [hd5, dget?_dset_ne _ _ _ _ (by decide), hd4,
        dget?_dset_ne _ _ _ _ (by decide),
        hgetB _ (by decide) (by decide) (by decide) (by decide)]
      exact (dcontains_false_iff _ _).mp hlr
    simp [stepLearningRate, h1]
  set d6 : Dict := dset d5 "learning_rate" (.float 1 3) with hd6
  have hgetC : ∀ k : String, k ≠ "psize" → k ≠ "resize" → k ≠ "num_epochs" →
      k ≠ "patience" → k ≠ "batch_size" → k ≠ "amp" → k ≠ "learning_rate" →
      dget? d6 k = dget? d k := by
    intro k h1 h2 h3 h4 h5 h6 h7
    rw [hd6, dget?_dset_ne _ _ _ _ h7, hd5, dget?_dset_ne _ _ _ _ h6, hd4,
      dget?_dset_ne _ _ _ _ h5, hgetB _ h1 h2 h3 h4]
  have hlf : lossStep d6 = .ok (dset d6 "loss_function" (.str "dc"), none) := by
    have h1 : dget? d6 "loss_function" = none := by
      rw [hgetC _ (by decide) (by decide) (by decide) (by decide) (by decide)
        (by decide) (by decide)]
      exact (dcontains_false_iff _ _).mp hloss
    simp [lossStep, h1]
  set d7 : Dict := dset d6 "loss_function" (.str "dc") with hd7
  have hop : strFieldStep "opt" "adam" d7 = .ok (dset d7 "opt" (.str "adam")) := by
    have h1 : dget? d7 "opt" = none := by
      rw [hd7, dget?_dset_ne _ _ _ _ (by decide),
        hgetC _ (by decide) (by decide) (by decide) (by decide) (by decide)
        (by decide) (by decide)]
      exact (dcontains_false_iff _ _).mp hopt
    simp [strFieldStep, h1]
  set d8 : Dict := dset d7 "opt" (.str "adam") with hd8
  have hgetD : dget? d8 "data_augmentation" = dget? d "data_augmentation" := by
    rw [hd8, dget?_dset_ne _ _ _ _ (by decide), hd7,
      dget?_dset_ne _ _ _ _ (by decide),
      hgetC _ (by decide) (by decide) (by decide) (by decide) (by decide)
      (by decide) (by decide)]
  have hchain : ∀ r : Res Dict, augStep none d8 = r →
      parseConfig gv d = Res.andThen r fun params =>
        Res.andThen (preprocStep params) fun params =>
        Res.andThen (intFieldStep "base_filters" 30 params) fun params =>
        Res.andThen (stepWhichModel params) fun params =>
        Res.andThen (checkModel params) fun _ =>
        Res.andThen (checkKcross params) fun _ =>
        Res.andThen (nestedCheck params) fun _ =>
        Res.andThen (strFieldStep "scheduler" "triangle" params) fun params =>
        Res.andThen (intFieldStep "q_max_length" 100 params) fun params =>
        Res.andThen (intFieldStep "q_samples_per_volume" 10 params) fun params =>
        Res.andThen (intFieldStep "q_num_workers" 4 params) fun params =>
        Res.andThen (stepQVerbose params) fun params =>
        Res.andThen (stepParallel params) fun params =>
        .ok params := by
    intro r hr
    rw [parseConfig, hcv, Res.andThen_ok, afterVersion, hcl, Res.andThen_ok,
      hcd, Res.andThen_ok, hps, Res.andThen_ok, hrs, Res.andThen_ok, hep,
      Res.andThen_ok, hb, Res.andThen_ok, ha, Res.andThen_ok, hl,
      Res.andThen_ok, hlf, Res.andThen_ok, hop, Res.andThen_ok, hr]
  constructor
  · intro habs
    have hda : dget? d8 "data_augmentation" = none := by
      rw [hgetD]
      exact (dcontains_false_iff _ _).mp habs
    have haug : augStep none d8 = .err (.keyError "data_augmentation") := by
      simp [augStep, pyDictGet, hda]
    have := hchain _ haug
    simp only [Res.andThen_err] at this
    exact ⟨this, by rw [this]; rfl, by rw [this]; rfl⟩
  · intro hpresent habs2
    have hda : dget? d8 "data_augmentation" = some (.dict []) := by
      rw [hgetD]; exact hpresent
    have haug : augStep none d8 = .ok d8 := by
      simp [augStep, pyDictGet, hda, pyLen]
    have hpre : preprocStep d8 = .err (.keyError "data_preprocessing") := by
      have h1 : dget? d8 "data_preprocessing" = none := by
        rw [hd8, dget?_dset_ne _ _ _ _ (by decide), hd7,
          dget?_dset_ne _ _ _ _ (by decide),
          hgetC _ (by decide) (by decide) (by decide) (by decide) (by decide)
          (by decide) (by decide)]
        exact (dcontains_false_iff _ _).mp habs2
      simp [preprocStep, pyDictGet, h1]
    have := hchain _ haug
    rw [Res.andThen_ok, hpre] at this
    simp only [Res.andThen_err] at this
    exact ⟨this, by rw [this]; rfl, by rw [this]; rfl⟩

/-- The document of the `C10_preprocessing_keys_mandatory` witness: every
field the spec requires is present and valid, but `data_augmentation` is
absent. -/
def c10wit : Dict :=
  [("version", verOk), ("class_list", .list [.int 0]), ("dimension", .int 3),
   ("patch_size", .list [.int 32, .int 32])]

theorem C10_preprocessing_keys_mandatory_witness :
    parseConfig "0.3.0" c10wit = .err (.keyError "data_augmentation") ∧
    (parseConfig "0.3.0" c10wit).isOk = false ∧
    (parseConfig "0.3.0" c10wit).isFatal = false := by
  have h := C10_preprocessing_keys_mandatory "0.3.0" c10wit
    [("minimum", .str "0.0.1"), ("maximum", .str "2.0.0")] "0.0.1" "2.0.0"
    30 1 200 (.int 3) (.list [.int 32, .int 32])
    rfl rfl rfl rfl rfl rfl (by decide) rfl rfl rfl rfl rfl rfl rfl rfl rfl rfl
    rfl rfl
  exact h.1 rfl

/-- The dot-separated components of a version string that `parse_version`
keeps: all of them, except that the last is deleted when more than 3 are
present. -/
def versionComponents (s : String) : List (List Char) :=
  let split := splitChar '.' s.data
  if split.length > 3 then split.dropLast else split

/-- A character the predicate rejects is never in the prefix that
`dropWhile` removes, so it survives. -/
theorem mem_dropWhile_of_not (l : List Char) (p : Char → Bool) (ch : Char)
    (hmem : ch ∈ l) (hp : p ch = false) : ch ∈ l.dropWhile p := by
  induction l with
  | nil => cases hmem
  | cons c rest ih =>
      rw [List.dropWhile_cons]
      by_cases hc : p c = true
      · rw [if_pos hc]
        cases hmem with
        | head => rw [hp] at hc; cases hc
        | tail _ h => exact ih h
      · rw [if_neg hc]
        exact hmem

/-- Everything a valid digit tail contains is a digit or an underscore. -/
theorem digitsTail_all (l : List Char) (h : digitsTail l = true) :
    ∀ x ∈ l, x.isDigit = true ∨ x = '_' := by
  induction l using digitsTail.induct with
  | case1 => intro x hx; cases hx
  | case2 => simp [digitsTail] at h
  | case3 d rest ih =>
      unfold digitsTail at h
      rw [if_pos rfl] at h
      dsimp only at h
      rw [Bool.and_eq_true] at h
      intro x hx
      rcases hx with _ | ⟨_, hx⟩
      · exact Or.inr rfl
      · rcases hx with _ | ⟨_, hx⟩
        · exact Or.inl h.1
        · exact ih h.2 x hx
  | case4 c rest hc ih =>
      unfold digitsTail at h
      rw [if_neg hc] at h
      rw [Bool.and_eq_true] at h
      intro x hx
      rcases hx with _ | ⟨_, hx⟩
      · exact Or.inl h.1
      · exact ih h.2 x hx

/-- Everything a valid digit string contains is a digit or an
underscore. -/
theorem digitsWithUnderscores_all (l : List Char)
    (h : digitsWithUnderscores l = true) :
    ∀ x ∈ l, x.isDigit = true ∨ x = '_' := by
  cases l with
  | nil => intro x hx; cases hx
  | cons c rest =>
      rw [digitsWithUnderscores, Bool.and_eq_true] at h
      intro x hx
      cases hx with
      | head => exact Or.inl h.1
      | tail _ hx => exact digitsTail_all rest h.2 x hx

/-- A character that can appear nowhere in a Python integer literal — not
an ASCII digit, not a sign, not a grouping underscore, not surrounding
ASCII whitespace — makes `int()` fail wherever it sits in the string. -/
theorem parseIntChars_none_of_bad (l : List Char) (ch : Char)
    (hmem : ch ∈ l) (hnd : ch.isDigit = false) (hminus : ch ≠ '-')
    (hplus : ch ≠ '+') (hund : ch ≠ '_') (hws : pyWhitespace ch = false) :
    parseIntChars l = none := by
  have hdwu : ∀ m : List Char, ch ∈ m → digitsWithUnderscores m = false := by
    intro m hm
    apply Bool.eq_false_iff.mpr
    intro hd
    rcases digitsWithUnderscores_all m hd ch hm with h | h
    · rw [hnd] at h; cases h
    · exact hund h
  have h4 : ch ∈ ((l.dropWhile pyWhitespace).reverse.dropWhile pyWhitespace).reverse :=
    List.mem_reverse.mpr (mem_dropWhile_of_not _ _ _
      (List.mem_reverse.mpr (mem_dropWhile_of_not _ _ _ hmem hws)) hws)
  unfold parseIntChars
  dsimp only
  cases hslist : ((l.dropWhile pyWhitespace).reverse.dropWhile pyWhitespace).reverse with
  | nil => rw [hslist] at h4
  | cons c rest =>
      rw [hslist] at h4
      dsimp only
      by_cases hcm : c = '-'
      · have hr : ch ∈ rest := by
          rcases List.mem_cons.mp h4 with h | h
          · exact absurd (h.trans hcm) hminus
          · exact h
        simp [hcm, hdwu rest hr]
      · by_cases hcp : c = '+'
        · have hr : ch ∈ rest := by
            rcases List.mem_cons.mp h4 with h | h
            · exact absurd (h.trans hcp) hplus
            · exact h
          simp [hcm, hcp, hdwu rest hr]
        · simp [hcm, hcp, hdwu (c :: rest) h4]

/-- C8: `parse_version` splits on `.`, deletes the final component exactly
when more than 3 are present, concatenates the remaining digit strings and
parses the concatenation with `int(...)`: `1.2.3` gives the literal `123`
(concatenation, not addition) and compares below `1.2.4`'s `124`;
`1.0.0.rc1` loses only its 4th component and equals `1.0.0`; at exactly 3
components nothing is deleted, at 5 only the last.  `int()` accepts sign,
surrounding ASCII whitespace and digit-grouping underscores (so
`1_0.2.3` parses to `1023`), and fails (`ValueError`, modelled as `none`)
whenever a kept component contains a character that is none of these; the
closing clause proves that failure for every ASCII character outside
`int()`'s alphabet (non-ASCII digits and spaces are outside the model,
hence the ASCII bound). -/
theorem C8_parse_version :
    parse_version "1.2.3" = some 123 ∧
    parse_version "1.2.4" = some 124 ∧
    (123 : Int) < 124 ∧
    parse_version "1.0.0.rc1" = some 100 ∧
    parse_version "1.0.0" = some 100 ∧
    parse_version "1.2.3.4.5" = some 1234 ∧
    parse_version "1_0.2.3" = some 1023 ∧
    parse_version "+1.2.3" = some 123 ∧
    parse_version " 1.2.3 " = some 123 ∧
    (∀ (s : String) (c : List Char) (ch : Char),
      c ∈ versionComponents s → ch ∈ c → ch.toNat < 128 →
      ch.isDigit = false → ch ≠ '-' → ch ≠ '+' → ch ≠ '_' →
      pyWhitespace ch = false →
      parse_version s = none) := by
  refine ⟨rfl, rfl, by decide, rfl, rfl, rfl, rfl, rfl, rfl, ?_⟩
  intro s c ch hc hch _ hnd hminus hplus hund hws
  have hmem : ch ∈ (versionComponents s).flatten :=
    List.mem_flatten.mpr ⟨c, hc, hch⟩
  have heq : parse_version s = parseIntChars (versionComponents s).flatten := rfl
  rw [heq, parseIntChars_none_of_bad _ ch hmem hnd hminus hplus hund hws]

theorem C8_parse_version_witness : parse_version "1.a.3" = none :=
  C8_parse_version.2.2.2.2.2.2.2.2.2 "1.a.3" ['a'] 'a'
    (by decide) (by decide) (by decide) (by decide) (by decide) (by decide)
    (by decide) (by decide)

theorem Res.andThen_eq_ok {α β : Type} {r : Res α} {f : α → Res β} {b : β}
    (h : Res.andThen r f = .ok b) : ∃ a, r = .ok a ∧ f a = .ok b := by
  cases r with
  | ok a => exact ⟨a, rfl, h⟩
  | fatal m => exact absurd h (by simp [Res.andThen])
  | err e => exact absurd h (by simp [Res.andThen])

theorem intFieldStep_preserves {key : String} {dflt : Int} {d d' : Dict}
    {k : String} (hk : k ≠ key) (h : intFieldStep key dflt d = .ok d') :
    dget? d' k = dget? d k := by
  unfold intFieldStep at h
  obtain ⟨n, _, h2⟩ := Res.andThen_eq_ok h
  cases h2
  exact dget?_dset_ne _ _ _ _ hk

theorem strFieldStep_preserves {key : String} {dflt : String} {d d' : Dict}
    {k : String} (hk : k ≠ key) (h : strFieldStep key dflt d = .ok d') :
    dget? d' k = dget? d k := by
  unfold strFieldStep at h
  cases hg : dget? d key <;> rw [hg] at h <;> cases h <;>
    exact dget?_dset_ne _ _ _ _ hk

theorem stepAmp_preserves {d d' : Dict} {k : String} (hk : k ≠ "amp")
    (h : stepAmp d = .ok d') : dget? d' k = dget? d k := by
  unfold stepAmp at h
  cases hg : dget? d "amp" <;> rw [hg] at h <;> cases h <;>
    exact dget?_dset_ne _ _ _ _ hk

theorem stepLearningRate_preserves {d d' : Dict} {k : String}
    (hk : k ≠ "learning_rate") (h : stepLearningRate d = .ok d') :
    dget? d' k = dget? d k := by
  unfold stepLearningRate at h
  obtain ⟨q, _, h2⟩ := Res.andThen_eq_ok h
  cases h2
  exact dget?_dset_ne _ _ _ _ hk

theorem stepPatchSize_preserves {d d' : Dict} {k : String} (hk : k ≠ "psize")
    (h : stepPatchSize d = .ok d') : dget? d' k = dget? d k := by
  unfold stepPatchSize at h
  cases hg : dget? d "patch_size" with
  | none => rw [hg] at h; cases h
  | some v => rw [hg] at h; cases h; exact dget?_dset_ne _ _ _ _ hk

theorem stepResize_preserves {d d' : Dict} {k : String} (hk : k ≠ "resize")
    (h : stepResize d = .ok d') : dget? d' k = dget? d k := by
  unfold stepResize at h
  by_cases hc : dcontains d "resize"
  · rw [if_pos hc] at h
    obtain ⟨rv, _, h⟩ := Res.andThen_eq_ok h
    obtain ⟨pv, _, h⟩ := Res.andThen_eq_ok h
    obtain ⟨ge, _, h⟩ := Res.andThen_eq_ok h
    cases ge with
    | true => simp at h; cases h; rfl
    | false => simp at h
  · rw [if_neg hc] at h
    cases h
    exact dget?_dset_ne _ _ _ _ hk

theorem stepEpochsPatience_preserves {d d' : Dict} {k : String}
    (h1 : k ≠ "num_epochs") (h2 : k ≠ "patience")
    (h : stepEpochsPatience d = .ok d') : dget? d' k = dget? d k := by
  unfold stepEpochsPatience at h
  obtain ⟨n, _, h⟩ := Res.andThen_eq_ok h
  obtain ⟨p, _, h3⟩ := Res.andThen_eq_ok h
  cases h3
  rw [dget?_dset_ne _ _ _ _ h2, dget?_dset_ne _ _ _ _ h1]

theorem lossLoopBody_preserves {d d' : Dict} {key k : String}
    (hk : k ≠ "loss_function") (h : lossLoopBody d key = .ok d') :
    dget? d' k = dget? d k := by
  unfold lossLoopBody at h
  by_cases hkey : key = "mse"
  · rw [if_pos hkey] at h
    obtain ⟨lf, _, h⟩ := Res.andThen_eq_ok h
    obtain ⟨v, _, h⟩ := Res.andThen_eq_ok h
    obtain ⟨needsFix, _, h⟩ := Res.andThen_eq_ok h
    cases needsFix with
    | true =>
        rw [if_pos rfl] at h
        obtain ⟨lf1, _, h⟩ := Res.andThen_eq_ok h
        obtain ⟨inner, _, h⟩ := Res.andThen_eq_ok h
        obtain ⟨inner1, _, h⟩ := Res.andThen_eq_ok h
        obtain ⟨lf2, _, h⟩ := Res.andThen_eq_ok h
        cases h
        exact dget?_dset_ne _ _ _ _ hk
    | false => simp at h; cases h; rfl
  · rw [if_neg hkey] at h
    cases h
    exact dget?_dset_ne _ _ _ _ hk

theorem foldlM_lossLoopBody_preserves {k : String} (hk : k ≠ "loss_function") :
    ∀ (l : List (String × Val)) (d d' : Dict),
      List.foldlM (fun acc kv => lossLoopBody acc kv.1) d l = .ok d' →
      dget? d' k = dget? d k := by
  intro l
  induction l with
  | nil =>
      intro d d' h
      rw [List.foldlM_nil] at h
      cases h
      rfl
  | cons x xs ih =>
      intro d d' h
      rw [List.foldlM_cons] at h
      obtain ⟨d1, hd1, h⟩ := Res.andThen_eq_ok h
      rw [ih d1 d' h, lossLoopBody_preserves hk hd1]

theorem lossStep_preserves {d d' : Dict} {kv : Option String} {k : String}
    (hk : k ≠ "loss_function") (h : lossStep d = .ok (d', kv)) :
    dget? d' k = dget? d k := by
  unfold lossStep at h
  cases hg : dget? d "loss_function" with
  | none =>
      rw [hg] at h
      cases h
      exact dget?_dset_ne _ _ _ _ hk
  | some v =>
      rw [hg] at h
      cases v with
      | dict kvs =>
          dsimp only at h
          by_cases hlen : kvs.length > 0
          · rw [if_pos hlen] at h
            obtain ⟨d1, hd1, h⟩ := Res.andThen_eq_ok h
            obtain ⟨lf, _, h2⟩ := Res.andThen_eq_ok h
            cases h2
            rw [dget?_dset_ne _ _ _ _ hk,
              foldlM_lossLoopBody_preserves hk kvs d d1 hd1]
          · rw [if_neg hlen] at h
            cases h
            exact dget?_dset_ne _ _ _ _ hk
      | null => simp at h; cases h; exact dget?_dset_ne _ _ _ _ hk
      | bool b => simp at h; cases h; exact dget?_dset_ne _ _ _ _ hk
      | int n => simp at h; cases h; exact dget?_dset_ne _ _ _ _ hk
      | float m e => simp at h; cases h; exact dget?_dset_ne _ _ _ _ hk
      | str s =>
          by_cases hs : pyEqStrLit (.str s) "mse"
          · simp only [if_pos hs] at h
            cases h
            exact dget?_dset_ne _ _ _ _ hk
          · simp only [if_neg hs] at h
            cases h
            exact dget?_dset_ne _ _ _ _ hk
      | list xs => simp at h; cases h; exact dget?_dset_ne _ _ _ _ hk

theorem augStep_preserves {kv : Option String} {d d' : Dict} {k : String}
    (hk : k ≠ "data_augmentation") (h : augStep kv d = .ok d') :
    dget? d' k = dget? d k := by
  unfold augStep at h
  obtain ⟨aug, _, h⟩ := Res.andThen_eq_ok h
  obtain ⟨n, _, h⟩ := Res.andThen_eq_ok h
  by_cases hn : n > 0
  · rw [if_pos hn] at h
    cases kv with
    | none => simp at h
    | some key =>
        dsimp only at h
        by_cases hskip : !(["normalize", "resample", "threshold", "clip"].contains key)
        · rw [if_pos hskip] at h
          obtain ⟨v, _, h⟩ := Res.andThen_eq_ok h
          obtain ⟨needsFix, _, h⟩ := Res.andThen_eq_ok h
          cases needsFix with
          | true =>
              rw [if_pos rfl] at h
              obtain ⟨aug1, _, h⟩ := Res.andThen_eq_ok h
              obtain ⟨inner, _, h⟩ := Res.andThen_eq_ok h
              obtain ⟨inner1, _, h⟩ := Res.andThen_eq_ok h
              obtain ⟨aug2, _, h⟩ := Res.andThen_eq_ok h
              cases h
              exact dget?_dset_ne _ _ _ _ hk
          | false => simp at h; cases h; rfl
        · rw [if_neg hskip] at h
          cases h
          rfl
  · rw [if_neg hn] at h
    cases h
    rfl

theorem preprocStep_ok_eq {d d' : Dict} (h : preprocStep d = .ok d') :
    d' = d := by
  unfold preprocStep at h
  obtain ⟨pre, _, h⟩ := Res.andThen_eq_ok h
  obtain ⟨n, _, h⟩ := Res.andThen_eq_ok h
  rw [if_neg (by omega)] at h
  cases h
  rfl

theorem stepWhichModel_preserves {d d' : Dict} {k : String}
    (hk : k ≠ "which_model") (h : stepWhichModel d = .ok d') :
    dget? d' k = dget? d k := by
  unfold stepWhichModel at h
  cases h1 : dget? d "modelName" with
  | some v => rw [h1] at h; cases h; exact dget?_dset_ne _ _ _ _ hk
  | none =>
      rw [h1] at h
      dsimp only at h
      cases h2 : dget? d "which_model" <;> rw [h2] at h <;> cases h <;>
        exact dget?_dset_ne _ _ _ _ hk

theorem stepQVerbose_preserves {d d' : Dict} {k : String}
    (hk : k ≠ "q_verbose") (h : stepQVerbose d = .ok d') :
    dget? d' k = dget? d k := by
  unfold stepQVerbose at h
  cases h1 : dget? d "q_verbose" with
  | none => rw [h1] at h; cases h; exact dget?_dset_ne _ _ _ _ hk
  | some v =>
      rw [h1] at h
      dsimp only at h
      by_cases h2 : pyEqStrLit v "True" <;>
        simp only [h2, if_true, if_false, Bool.false_eq_true] at h <;>
        cases h <;> exact dget?_dset_ne _ _ _ _ hk

theorem stepParallel_preserves {d d' : Dict} {k : String}
    (hk : k ≠ "parallel_compute_command") (h : stepParallel d = .ok d') :
    dget? d' k = dget? d k := by
  unfold stepParallel at h
  cases h1 : dget? d "parallel_compute_command" with
  | none => rw [h1] at h; cases h; exact dget?_dset_ne _ _ _ _ hk
  | some v =>
      rw [h1] at h
      cases v
      all_goals dsimp only at h
      all_goals cases h
      exact dget?_dset_ne _ _ _ _ hk

/-- A successful `parseConfig` run factors into successful runs of every
step, in source order. -/
theorem parseConfig_ok_decompose (gv : String) (d out : Dict)
    (h : parseConfig gv d = .ok out) :
    ∃ (dp dr de db da dl : Dict) (pk : Dict × Option String)
      (dopt daug dpre dbf dwm dsch dq1 dq2 dq3 dqv : Dict),
      stepPatchSize d = .ok dp ∧
      stepResize dp = .ok dr ∧
      stepEpochsPatience dr = .ok de ∧
      intFieldStep "batch_size" 1 de = .ok db ∧
      stepAmp db = .ok da ∧
      stepLearningRate da = .ok dl ∧
      lossStep dl = .ok pk ∧
      strFieldStep "opt" "adam" pk.1 = .ok dopt ∧
      augStep pk.2 dopt = .ok daug ∧
      preprocStep daug = .ok dpre ∧
      intFieldStep "base_filters" 30 dpre = .ok dbf ∧
      stepWhichModel dbf = .ok dwm ∧
      strFieldStep "scheduler" "triangle" dwm = .ok dsch ∧
      intFieldStep "q_max_length" 100 dsch = .ok dq1 ∧
      intFieldStep "q_samples_per_volume" 10 dq1 = .ok dq2 ∧
      intFieldStep "q_num_workers" 4 dq2 = .ok dq3 ∧
      stepQVerbose dq3 = .ok dqv ∧
      stepParallel dqv = .ok out := by
  unfold parseConfig at h
  obtain ⟨_, _, h⟩ := Res.andThen_eq_ok h
  unfold afterVersion at h
  obtain ⟨_, _, h⟩ := Res.andThen_eq_ok h
  obtain ⟨_, _, h⟩ := Res.andThen_eq_ok h
  obtain ⟨dp, hdp, h⟩ := Res.andThen_eq_ok h
  obtain ⟨dr, hdr, h⟩ := Res.andThen_eq_ok h
  obtain ⟨de, hde, h⟩ := Res.andThen_eq_ok h
  obtain ⟨db, hdb, h⟩ := Res.andThen_eq_ok h
  obtain ⟨da, hda, h⟩ := Res.andThen_eq_ok h
  obtain ⟨dl, hdl, h⟩ := Res.andThen_eq_ok h
  obtain ⟨pk, hpk, h⟩ := Res.andThen_eq_ok h
  obtain ⟨dopt, hdopt, h⟩ := Res.andThen_eq_ok h
  obtain ⟨daug, hdaug, h⟩ := Res.andThen_eq_ok h
  obtain ⟨dpre, hdpre, h⟩ := Res.andThen_eq_ok h
  obtain ⟨dbf, hdbf, h⟩ := Res.andThen_eq_ok h
  obtain ⟨dwm, hdwm, h⟩ := Res.andThen_eq_ok h
  obtain ⟨_, _, h⟩ := Res.andThen_eq_ok h
  obtain ⟨_, _, h⟩ := Res.andThen_eq_ok h
  obtain ⟨_, _, h⟩ := Res.andThen_eq_ok h
  obtain ⟨dsch, hdsch, h⟩ := Res.andThen_eq_ok h
  obtain ⟨dq1, hdq1, h⟩ := Res.andThen_eq_ok h
  obtain ⟨dq2, hdq2, h⟩ := Res.andThen_eq_ok h
  obtain ⟨dq3, hdq3, h⟩ := Res.andThen_eq_ok h
  obtain ⟨dqv, hdqv, h⟩ := Res.andThen_eq_ok h
  obtain ⟨dpar, hdpar, h⟩ := Res.andThen_eq_ok h
  cases h
  exact ⟨dp, dr, de, db, da, dl, pk, dopt, daug, dpre, dbf, dwm, dsch, dq1,
    dq2, dq3, dqv, hdp, hdr, hde, hdb, hda, hdl, hpk, hdopt, hdaug, hdpre,
    hdbf, hdwm, hdsch, hdq1, hdq2, hdq3, hdqv, hdpar⟩

/-- The fully-normalized `mse` loss value. -/
def mseNormalized : Val := .dict [("mse", .dict [("reduction", .str "mean")])]

/-- The lookup of `loss_function` is unchanged by every step that runs
before the `loss_function` block. -/
theorem pre_loss_lookup (d dp dr de db da dl : Dict)
    (hdp : stepPatchSize d = .ok dp) (hdr : stepResize dp = .ok dr)
    (hde : stepEpochsPatience dr = .ok de)
    (hdb : intFieldStep "batch_size" 1 de = .ok db)
    (hda : stepAmp db = .ok da) (hdl : stepLearningRate da = .ok dl) :
    dget? dl "loss_function" = dget? d "loss_function" := by
  rw [stepLearningRate_preserves (by decide) hdl,
    stepAmp_preserves (by decide) hda,
    intFieldStep_preserves (by decide) hdb,
    stepEpochsPatience_preserves (by decide) (by decide) hde,
    stepResize_preserves (by decide) hdr,
    stepPatchSize_preserves (by decide) hdp]

/-- The lookup of `loss_function` is unchanged by every step that runs
after the `loss_function` block. -/
theorem post_loss_lookup (dm dopt daug dpre dbf dwm dsch dq1 dq2 dq3 dqv out : Dict)
    (kv : Option String)
    (hdopt : strFieldStep "opt" "adam" dm = .ok dopt)
    (hdaug : augStep kv dopt = .ok daug)
    (hdpre : preprocStep daug = .ok dpre)
    (hdbf : intFieldStep "base_filters" 30 dpre = .ok dbf)
    (hdwm : stepWhichModel dbf = .ok dwm)
    (hdsch : strFieldStep "scheduler" "triangle" dwm = .ok dsch)
    (hdq1 : intFieldStep "q_max_length" 100 dsch = .ok dq1)
    (hdq2 : intFieldStep "q_samples_per_volume" 10 dq1 = .ok dq2)
    (hdq3 : intFieldStep "q_num_workers" 4 dq2 = .ok dq3)
    (hdqv : stepQVerbose dq3 = .ok dqv)
    (hdpar : stepParallel dqv = .ok out) :
    dget? out "loss_function" = dget? dm "loss_function" := by
  rw [stepParallel_preserves (by decide) hdpar,
    stepQVerbose_preserves (by decide) hdqv,
    intFieldStep_preserves (by decide) hdq3,
    intFieldStep_preserves (by decide) hdq2,
    intFieldStep_preserves (by decide) hdq1,
    strFieldStep_preserves (by decide) hdsch,
    stepWhichModel_preserves (by decide) hdwm,
    intFieldStep_preserves (by decide) hdbf,
    preprocStep_ok_eq hdpre,
    augStep_preserves (by decide) hdaug,
    strFieldStep_preserves (by decide) hdopt]

/-- C3: on every successful run, the returned `loss_function` is fully
normalized — an absent key comes back as the default tag `dc`; the scalar
`mse` and the mappings `{mse: {}}` and `{mse: null}` all come back as
`{mse: {reduction: mean}}`; an empty mapping falls back to `dc`. -/
theorem C3_loss_function_normalized (gv : String) (d out : Dict)
    (h : parseConfig gv d = .ok out) :
    (dcontains d "loss_function" = false →
       dget? out "loss_function" = some (.str "dc")) ∧
    (dget? d "loss_function" = some (.str "mse") →
       dget? out "loss_function" = some mseNormalized) ∧
    (dget? d "loss_function" = some (.dict [("mse", .dict [])]) →
       dget? out "loss_function" = some mseNormalized) ∧
    (dget? d "loss_function" = some (.dict [("mse", .null)]) →
       dget? out "loss_function" = some mseNormalized) ∧
    (dget? d "loss_function" = some (.dict []) →
       dget? out "loss_function" = some (.str "dc")) := by
  obtain ⟨dp, dr, de, db, da, dl, pk, dopt, daug, dpre, dbf, dwm, dsch, dq1,
    dq2, dq3, dqv, hdp, hdr, hde, hdb, hda, hdl, hpk, hdopt, hdaug, hdpre,
    hdbf, hdwm, hdsch, hdq1, hdq2, hdq3, hdqv, hdpar⟩ :=
    parseConfig_ok_decompose gv d out h
  have hpre : dget? dl "loss_function" = dget? d "loss_function" :=
    pre_loss_lookup d dp dr de db da dl hdp hdr hde hdb hda hdl
  have hpost : dget? out "loss_function" = dget? pk.1 "loss_function" :=
    post_loss_lookup pk.1 dopt daug dpre dbf dwm dsch dq1 dq2 dq3 dqv out
      pk.2 hdopt hdaug hdpre hdbf hdwm hdsch hdq1 hdq2 hdq3 hdqv hdpar
  refine ⟨?_, ?_, ?_, ?_, ?_⟩
  · intro hc
    have hv : dget? dl "loss_function" = none := by
      rw [hpre]; exact (dcontains_false_iff _ _).mp hc
    have : lossStep dl = .ok (dset dl "loss_function" (.str "dc"), none) := by
      simp [lossStep, hv]
    rw [this] at hpk
    cases hpk
    rw [hpost]
    simp
  · intro hc
    have hv : dget? dl "loss_function" = some (.str "mse") := by rw [hpre, hc]
    have : lossStep dl = .ok (dset dl "loss_function" mseNormalized, none) := by
      simp [lossStep, hv, pyEqStrLit, mseNormalized]
    rw [this] at hpk
    cases hpk
    rw [hpost]
    simp
  · intro hc
    have hv : dget? dl "loss_function" = some (.dict [("mse", .dict [])]) := by
      rw [hpre, hc]
    have hbody : lossLoopBody dl "mse" =
        .ok (dset dl "loss_function" mseNormalized) := by
      simp [lossLoopBody, pyDictGet, hv, pyGetItem, pyEqNone, pyIn,
        pySetItem, dget?, dset, dcontains, mseNormalized]
    have : lossStep dl =
        .ok (dset (dset dl "loss_function" mseNormalized) "loss_function"
          mseNormalized, some "mse") := by
      simp [lossStep, hv, List.foldlM_cons, List.foldlM_nil, hbody, pyDictGet]
    rw [this] at hpk
    cases hpk
    rw [hpost]
    simp [mseNormalized]
  · intro hc
    have hv : dget? dl "loss_function" = some (.dict [("mse", .null)]) := by
      rw [hpre, hc]
    have hbody : lossLoopBody dl "mse" =
        .ok (dset dl "loss_function" mseNormalized) := by
      simp [lossLoopBody, pyDictGet, hv, pyGetItem, pyEqNone, pyIn,
        pySetItem, dget?, dset, dcontains, mseNormalized]
    have : lossStep dl =
        .ok (dset (dset dl "loss_function" mseNormalized) "loss_function"
          mseNormalized, some "mse") := by
      simp [lossStep, hv, List.foldlM_cons, List.foldlM_nil, hbody, pyDictGet]
    rw [this] at hpk
    cases hpk
    rw [hpost]
    simp [mseNormalized]
  · intro hc
    have hv : dget? dl "loss_function" = some (.dict []) := by rw [hpre, hc]
    have : lossStep dl = .ok (dset dl "loss_function" (.str "dc"), none) := by
      simp [lossStep, hv]
    rw [this] at hpk
    cases hpk
    rw [hpost]
    simp

theorem C3_loss_function_normalized_witness :
    dget? c7out "loss_function" = some (.str "dc") :=
  (C3_loss_function_normalized "0.3.0" c7doc c7out rfl).1 rfl

theorem asNumAll_int (rs : List Int) :
    asNumAll (rs.map Val.int) =
      some (rs.map fun n => ((n : Int), (0 : Nat))) := by
  induction rs with
  | nil => rfl
  | cons x xs ih => simp [asNumAll, asNum, ih]

theorem zip_all_decimalGe : ∀ (rs ps : List Int),
    (((rs.map fun n => ((n : Int), (0 : Nat))).zip
        (ps.map fun n => ((n : Int), (0 : Nat)))).all
      fun p => decimalGe p.1 p.2) =
    ((rs.zip ps).all fun p => decide (p.2 ≤ p.1)) := by
  intro rs
  induction rs with
  | nil => intro ps; rfl
  | cons x xs ih =>
      intro ps
      cases ps with
      | nil => rfl
      | cons y ys =>
          simp only [List.map_cons, List.zip_cons_cons, List.all_cons, ih ys]
          congr 1
          simp [decimalGe]

/-- On two same-length lists of integers, the numpy comparison computes
exactly the element-wise `≥`. -/
theorem npGreaterEqualAll_int_lists (rs ps : List Int)
    (hlen : rs.length = ps.length) :
    npGreaterEqualAll (.list (rs.map Val.int)) (.list (ps.map Val.int)) =
      .ok ((rs.zip ps).all fun p => decide (p.2 ≤ p.1)) := by
  simp only [npGreaterEqualAll, asNumList, asNumAll_int, List.length_map,
    hlen, if_true]
  congr 1
  exact zip_all_decimalGe rs ps

theorem stepResize_ok_of_contains {d d' : Dict}
    (hc : dcontains d "resize" = true) (h : stepResize d = .ok d') :
    d' = d := by
  unfold stepResize at h
  rw [if_pos hc] at h
  obtain ⟨rv, _, h⟩ := Res.andThen_eq_ok h
  obtain ⟨pv, _, h⟩ := Res.andThen_eq_ok h
  obtain ⟨ge, _, h⟩ := Res.andThen_eq_ok h
  cases ge with
  | true => simp at h; cases h; rfl
  | false => simp at h

/-- The lookup of `resize` is unchanged by every step that runs after the
resize gate. -/
theorem post_resize_lookup (dr de db da dl : Dict) (pk : Dict × Option String)
    (dopt daug dpre dbf dwm dsch dq1 dq2 dq3 dqv out : Dict)
    (hde : stepEpochsPatience dr = .ok de)
    (hdb : intFieldStep "batch_size" 1 de = .ok db)
    (hda : stepAmp db = .ok da) (hdl : stepLearningRate da = .ok dl)
    (hpk : lossStep dl = .ok pk)
    (hdopt : strFieldStep "opt" "adam" pk.1 = .ok dopt)
    (hdaug : augStep pk.2 dopt = .ok daug)
    (hdpre : preprocStep daug = .ok dpre)
    (hdbf : intFieldStep "base_filters" 30 dpre = .ok dbf)
    (hdwm : stepWhichModel dbf = .ok dwm)
    (hdsch : strFieldStep "scheduler" "triangle" dwm = .ok dsch)
    (hdq1 : intFieldStep "q_max_length" 100 dsch = .ok dq1)
    (hdq2 : intFieldStep "q_samples_per_volume" 10 dq1 = .ok dq2)
    (hdq3 : intFieldStep "q_num_workers" 4 dq2 = .ok dq3)
    (hdqv : stepQVerbose dq3 = .ok dqv)
    (hdpar : stepParallel dqv = .ok out) :
    dget? out "resize" = dget? dr "resize" := by
  have hpk' : lossStep dl = .ok (pk.1, pk.2) := by rw [← hpk]
  rw [stepParallel_preserves (by decide) hdpar,
    stepQVerbose_preserves (by decide) hdqv,
    intFieldStep_preserves (by decide) hdq3,
    intFieldStep_preserves (by decide) hdq2,
    intFieldStep_preserves (by decide) hdq1,
    strFieldStep_preserves (by decide) hdsch,
    stepWhichModel_preserves (by decide) hdwm,
    intFieldStep_preserves (by decide) hdbf,
    preprocStep_ok_eq hdpre,
    augStep_preserves (by decide) hdaug,
    strFieldStep_preserves (by decide) hdopt,
    lossStep_preserves (by decide) hpk',
    stepLearningRate_preserves (by decide) hdl,
    stepAmp_preserves (by decide) hda,
    intFieldStep_preserves (by decide) hdb,
    stepEpochsPatience_preserves (by decide) (by decide) hde]

/-- The document of C4's failing example: `resize = [64, 64]` against
`patch_size = [128, 128]`. -/
def c4bad : Dict :=
  [("version", verOk), ("class_list", .list [.int 0, .int 1]),
   ("dimension", .int 3), ("patch_size", .list [.int 128, .int 128]),
   ("resize", .list [.int 64, .int 64]),
   ("model", .dict [("architecture", .str "unet"), ("final_layer", .str "softmax")]),
   ("nested_training", .dict [("holdout", .int 5), ("validation", .int 5)]),
   ("data_augmentation", .dict []), ("data_preprocessing", .dict [])]

/-- The document of C4's passing example: `resize = [128, 128]` against
`patch_size = [64, 64]`. -/
def c4good : Dict :=
  [("version", verOk), ("class_list", .list [.int 0, .int 1]),
   ("dimension", .int 3), ("patch_size", .list [.int 64, .int 64]),
   ("resize", .list [.int 128, .int 128]),
   ("model", .dict [("architecture", .str "unet"), ("final_layer", .str "softmax")]),
   ("nested_training", .dict [("holdout", .int 5), ("validation", .int 5)]),
   ("data_augmentation", .dict []), ("data_preprocessing", .dict [])]

/-- The dictionary `parseConfig` returns for `c4good`: the `resize` field
is preserved unchanged. -/
def c4goodOut : Dict :=
  [("version", verOk), ("class_list", .list [.int 0, .int 1]),
   ("dimension", .int 3), ("patch_size", .list [.int 64, .int 64]),
   ("resize", .list [.int 128, .int 128]),
   ("model", .dict [("architecture", .str "unet"), ("final_layer", .str "softmax")]),
   ("nested_training", .dict [("holdout", .int 5), ("validation", .int 5)]),
   ("data_augmentation", .dict []), ("data_preprocessing", .dict []),
   ("psize", .list [.int 64, .int 64]), ("num_epochs", .int 100),
   ("patience", .int 100), ("batch_size", .int 1), ("amp", .bool false),
   ("learning_rate", .float 1 3), ("loss_function", .str "dc"),
   ("opt", .str "adam"), ("base_filters", .int 30),
   ("which_model", .str "resunet"), ("scheduler", .str "triangle"),
   ("q_max_length", .int 100), ("q_samples_per_volume", .int 10),
   ("q_num_workers", .int 4), ("q_verbose", .bool false),
   ("parallel_compute_command", .str "")]

/-- C4: on every successful run, an absent `resize` comes back defaulted
to `None` and a present `resize` comes back unchanged; the resize gate
itself exits fatally exactly when some position of `resize` is below the
matching position of `psize` (for same-length integer lists); and on the
claim's concrete examples, `resize = [64,64]` against
`patch_size = [128,128]` exits fatally while `resize = [128,128]` against
`patch_size = [64,64]` succeeds with `resize` preserved. -/
theorem C4_resize_gate (gv : String) (d out : Dict)
    (h : parseConfig gv d = .ok out) :
    (dcontains d "resize" = false → dget? out "resize" = some .null) ∧
    (dcontains d "resize" = true → dget? out "resize" = dget? d "resize") ∧
    (∀ (d0 : Dict) (rs ps : List Int),
      dget? d0 "resize" = some (.list (rs.map Val.int)) →
      dget? d0 "psize" = some (.list (ps.map Val.int)) →
      rs.length = ps.length →
      ((stepResize d0).isFatal = true ↔ ¬(∀ p ∈ rs.zip ps, p.2 ≤ p.1)) ∧
      ((∀ p ∈ rs.zip ps, p.2 ≤ p.1) → stepResize d0 = .ok d0)) ∧
    parseConfig "0.3.0" c4bad =
      .fatal "The \x27resize\x27 parameter needs to be greater than or equal to \x27patch_size\x27" ∧
    parseConfig "0.3.0" c4good = .ok c4goodOut ∧
    dget? c4goodOut "resize" = some (.list [.int 128, .int 128]) ∧
    dget? c4good "resize" = some (.list [.int 128, .int 128]) := by
  obtain ⟨dp, dr, de, db, da, dl, pk, dopt, daug, dpre, dbf, dwm, dsch, dq1,
    dq2, dq3, dqv, hdp, hdr, hde, hdb, hda, hdl, hpk, hdopt, hdaug, hdpre,
    hdbf, hdwm, hdsch, hdq1, hdq2, hdq3, hdqv, hdpar⟩ :=
    parseConfig_ok_decompose gv d out h
  have hpost : dget? out "resize" = dget? dr "resize" :=
    post_resize_lookup dr de db da dl pk dopt daug dpre dbf dwm dsch dq1 dq2
      dq3 dqv out hde hdb hda hdl hpk hdopt hdaug hdpre hdbf hdwm hdsch hdq1
      hdq2 hdq3 hdqv hdpar
  have hpre : dget? dp "resize" = dget? d "resize" :=
    stepPatchSize_preserves (by decide) hdp
  refine ⟨?_, ?_, ?_, rfl, rfl, rfl, rfl⟩
  · intro hc
    have hc' : dcontains dp "resize" = false := by
      rw [dcontains, hpre, ← dcontains]; exact hc
    unfold stepResize at hdr
    rw [if_neg (by rw [hc']; exact Bool.false_ne_true)] at hdr
    cases hdr
    rw [hpost, dget?_dset_self]
  · intro hc
    have hc' : dcontains dp "resize" = true := by
      rw [dcontains, hpre, ← dcontains]; exact hc
    rw [hpost, stepResize_ok_of_contains hc' hdr, hpre]
  · intro d0 rs ps hr hp hlen
    have hc0 : dcontains d0 "resize" = true := by
      rw [dcontains, hr]; rfl
    have hval : stepResize d0 =
        (if ((rs.zip ps).all fun p => decide (p.2 ≤ p.1)) = false then
          .fatal "The \x27resize\x27 parameter needs to be greater than or equal to \x27patch_size\x27"
        else
          .ok d0) := by
      unfold stepResize
      rw [if_pos hc0]
      simp [pyDictGet, hr, hp, npGreaterEqualAll_int_lists rs ps hlen]
    constructor
    · rw [hval]
      by_cases hall : (rs.zip ps).all fun p => decide (p.2 ≤ p.1)
      · rw [if_neg (by simp [hall])]
        simp only [Res.isFatal]
        constructor
        · intro hfalse
          exact absurd hfalse (by simp)
        · intro hnot
          exact absurd (fun p hp0 => by
            have := List.all_eq_true.mp hall p hp0
            exact of_decide_eq_true this) hnot
      · rw [if_pos (Bool.eq_false_iff.mpr hall)]
        simp only [Res.isFatal, true_iff]
        intro hforall
        exact hall (List.all_eq_true.mpr fun p hp0 =>
          decide_eq_true (hforall p hp0))
    · intro hforall
      rw [hval, if_neg]
      simp [List.all_eq_true.mpr fun p hp0 => decide_eq_true (hforall p hp0)]

theorem C4_resize_gate_witness :
    dget? c4goodOut "resize" = dget? c4good "resize" :=
  (C4_resize_gate "0.3.0" c4good c4goodOut rfl).2.1 rfl
